import Mathlib

/-!
Verification of the Instagram ingestion pipeline of `src/utils/instagram.ts`.

The TypeScript source is shallowly embedded: asynchronous, database-effecting
functions become pure state-passing functions over an explicit `DB` value, the
external collaborators (Instagram Graph API, Google Cloud Vision OCR, OpenAI)
become an explicit `Env` of oracles, and machine timestamps become integers
(minutes).  JavaScript dynamic values are modelled at their expected primitive
types, with key presence (`Option` outer layer) and JSON `null` (`Option` inner
layer) made explicit.  JavaScript coercion quirks that the code relies on
(`null + 2 == 2`, `x >= 100` being false for `undefined`) are modelled by the
`jsAdd` / `jsGe` helpers.
-/

namespace Instagram

/-- JavaScript addition `a + n` where `a` may be `null`: `null` coerces to `0`. -/
def jsAdd (a : Option Int) (n : Int) : Int := a.getD 0 + n

/-- JavaScript comparison `a >= n` where `a` may be `null` or `undefined`:
both coerce to a false comparison against 100 in the source usage
(`undefined >= 100` is `false`, `null >= 100` is `0 >= 100 = false`). -/
def jsGe (a : Option Int) (n : Int) : Bool :=
  match a with
  | some x => decide (n ≤ x)
  | none => false

/-- The object parsed from the model-generated JSON, before shape validation
(`postProcessOpenAiInstagramResponse`, lines 142-161).  The outer `Option` on
each field records whether the key is present (`Object.hasOwn`), the inner
`Option` on temporal fields records JSON `null`. -/
structure RawObject where
  isEvent : Option Bool
  title : Option String
  startHourMilitaryTime : Option (Option Int)
  endHourMilitaryTime : Option (Option Int)
  isPastEvent : Option Bool
  hasStartHourInPost : Option Bool
  startMinute : Option (Option Int)
  endMinute : Option (Option Int)
  startDay : Option (Option Int)
  endDay : Option (Option Int)
  startMonth : Option (Option Int)
  endMonth : Option (Option Int)
  startYear : Option (Option Int)
  endYear : Option (Option Int)
deriving DecidableEq

/-- Modelled from the spec: the text generated by the language model together
with the outcome of `JSON.parse(fixGeneratedJson(text))` (Step 1 of the
sanitizer).  A character-level JSON parser is not embedded, so generated
content is represented by its parse outcome: either a parse failure (the
`JSON.parse` exception message) or the parsed object. -/
inductive GeneratedContent where
  | unparseable (msg : String)
  | parsed (o : RawObject)
deriving DecidableEq

/-- The sanitized inference result (`OpenAiInstagramResult` from
`utils/openai.ts`, observed through its use sites in `instagram.ts`):
temporal fields may still be `null` after completion, flags are booleans. -/
structure OpenAiInstagramResult where
  isEvent : Bool
  title : String
  startHourMilitaryTime : Option Int
  endHourMilitaryTime : Option Int
  isPastEvent : Bool
  hasStartHourInPost : Bool
  startMinute : Option Int
  endMinute : Option Int
  startDay : Option Int
  endDay : Option Int
  startMonth : Option Int
  endMonth : Option Int
  startYear : Option Int
  endYear : Option Int
deriving DecidableEq

/-- Shape validation (lines 145-158): the parsed object must own all fourteen
required keys. -/
def hasAllProperties (o : RawObject) : Bool :=
  o.isEvent.isSome
  && o.title.isSome
  && o.startHourMilitaryTime.isSome
  && o.endHourMilitaryTime.isSome
  && o.isPastEvent.isSome
  && o.hasStartHourInPost.isSome
  && o.startMinute.isSome
  && o.endMinute.isSome
  && o.startDay.isSome
  && o.endDay.isSome
  && o.startMonth.isSome
  && o.endMonth.isSome
  && o.startYear.isSome
  && o.endYear.isSome

/-- Sanitizer and temporal normalizer (`postProcessOpenAiInstagramResponse`,
lines 142-195).  `currentYear` models `new Date().getFullYear()`.  The source
mutates one dynamic object in a fixed rule order; the successive `let`
bindings (including the shadowing rebinding of `endYear` and `endDay`) mirror
those mutations in the same order.  The final completion rule of the source
updates `endHourMilitaryTime` and `endDay` in a single branch; here the two
fields are computed by two matches on the same scrutinee. -/
def postProcessOpenAiInstagramResponse (currentYear : Int) (g : GeneratedContent) :
    Except String OpenAiInstagramResult :=
  match g with
  | .unparseable msg => .error msg
  | .parsed object =>
    if hasAllProperties object then
      let isEvent := object.isEvent.getD false
      let title := object.title.getD ""
      let startHour0 := object.startHourMilitaryTime.getD none
      let endHour0 := object.endHourMilitaryTime.getD none
      let isPast := object.isPastEvent.getD false
      let hasStart := object.hasStartHourInPost.getD false
      let startMinute0 := object.startMinute.getD none
      let endMinute0 := object.endMinute.getD none
      let startDay0 := object.startDay.getD none
      let endDay0 := object.endDay.getD none
      let startMonth0 := object.startMonth.getD none
      let endMonth0 := object.endMonth.getD none
      let startYear0 := object.startYear.getD none
      let endYear0 := object.endYear.getD none
      -- line 164: startYear null → current calendar year
      let startYear : Option Int := some (startYear0.getD currentYear)
      -- line 167: endYear null → copy of (post-rule) startYear
      let endYear : Option Int :=
        match endYear0 with
        | none => startYear
        | some v => some v
      -- lines 170-174: minutes null → 0
      let startMinute : Option Int := some (startMinute0.getD 0)
      let endMinute : Option Int := some (endMinute0.getD 0)
      -- line 176: year rollover startMonth == 12 && endMonth == 1
      let endYear : Option Int :=
        if startMonth0 == some 12 && endMonth0 == some 1 then
          some (jsAdd startYear 1)
        else endYear
      -- line 179: endMonth null → copy of startMonth
      let endMonth : Option Int :=
        match endMonth0 with
        | none => startMonth0
        | some v => some v
      -- line 182: endDay null → copy of startDay
      let endDay : Option Int :=
        match endDay0 with
        | none => startDay0
        | some v => some v
      -- lines 185-192: endHour null → startHour + 2, with carry past 23
      let endHour : Option Int :=
        match endHour0 with
        | none =>
          let e := jsAdd startHour0 2
          if e > 23 then some (e - 24) else some e
        | some v => some v
      let endDay : Option Int :=
        match endHour0 with
        | none =>
          let e := jsAdd startHour0 2
          if e > 23 then some (jsAdd startDay0 1) else endDay
        | some _ => endDay
      .ok {
        isEvent := isEvent
        title := title
        startHourMilitaryTime := startHour0
        endHourMilitaryTime := endHour
        isPastEvent := isPast
        hasStartHourInPost := hasStart
        startMinute := startMinute
        endMinute := endMinute
        startDay := startDay0
        endDay := endDay
        startMonth := startMonth0
        endMonth := endMonth
        startYear := startYear
        endYear := endYear }
    else .error "JSON does not contain expected fields"

/-!
Calendar model.  `persistEvent` builds instants with Luxon
(`DateTime.fromObject` in zone `America/Los_Angeles`, `plus({days})`,
`toUTC().toJSDate()`).  Luxon is an external library; it is modelled as the
proleptic Gregorian calendar with instants measured in minutes.
`DateTime.fromObject` yields an Invalid DateTime (modelled `none`) for
out-of-range or `null` units.  The fixed source timezone is modelled as a
fixed UTC offset (PST, UTC-8); sub-hourly DST adjustments come from the
external IANA zone database and are abstracted to a constant shared by both
the start and end instants.
-/

/-- Gregorian leap-year rule. -/
def isLeapYear (y : Int) : Bool :=
  (y % 4 == 0 && !(y % 100 == 0)) || y % 400 == 0

/-- Number of days in the given month of the given year. -/
def daysInMonth (y m : Int) : Int :=
  if m == 2 then (if isLeapYear y then 29 else 28)
  else if m == 4 || m == 6 || m == 9 || m == 11 then 30
  else 31

/-- Cumulative number of days strictly before month `m` (for `1 ≤ m ≤ 12`)
within year `y`. -/
def daysBeforeMonth (y m : Int) : Int :=
  let feb : Int := if isLeapYear y then 29 else 28
  if m ≤ 1 then 0
  else if m = 2 then 31
  else if m = 3 then 31 + feb
  else if m = 4 then 62 + feb
  else if m = 5 then 92 + feb
  else if m = 6 then 123 + feb
  else if m = 7 then 153 + feb
  else if m = 8 then 184 + feb
  else if m = 9 then 215 + feb
  else if m = 10 then 245 + feb
  else if m = 11 then 276 + feb
  else 306 + feb

/-- Days contributed by whole years before year `y`, counted from year 0:
`365` per year plus the number of leap years in `[0, y)`. -/
def yearDays (y : Int) : Int :=
  365 * y + (y + 3) / 4 - (y + 99) / 100 + (y + 399) / 400

/-- Proleptic Gregorian day number of the civil date `(y, m, d)`.  Affine in
`d`, which is exactly how Luxon `plus({days})` composes with it. -/
def daysFromCivil (y m d : Int) : Int :=
  yearDays y + daysBeforeMonth y m + d - 1

/-- Wall-clock minutes of `(y, m, d, h, n)` in the source timezone. -/
def wallMinutes (y m d h n : Int) : Int :=
  daysFromCivil y m d * 1440 + h * 60 + n

/-- Fixed UTC offset, in minutes, of the source timezone
`America/Los_Angeles` (PST, UTC-8). -/
def losAngelesOffsetMinutes : Int := -480

/-- Conversion of a wall-clock instant of the source timezone to UTC
(`toUTC()`). -/
def toUTCMinutes (wall : Int) : Int := wall - losAngelesOffsetMinutes

/-- Whether the units form a valid Luxon `fromObject` input: Luxon yields an
Invalid DateTime for an out-of-range month, day, hour or minute. -/
def fromObjectValid (y m d h n : Int) : Prop :=
  1 ≤ m ∧ m ≤ 12 ∧ 1 ≤ d ∧ d ≤ daysInMonth y m ∧ 0 ≤ h ∧ h ≤ 23 ∧ 0 ≤ n ∧ n ≤ 59

instance (y m d h n : Int) : Decidable (fromObjectValid y m d h n) := by
  unfold fromObjectValid; infer_instance

/-- Luxon `DateTime.fromObject({year, month, day, hour, minute})` in the
source timezone: a wall-clock instant, or `none` for an Invalid DateTime. -/
def DateTimeFromObject (y m d h n : Int) : Option Int :=
  if fromObjectValid y m d h n then some (wallMinutes y m d h n) else none

/-- Luxon `fromObject` where the year or month field of the dynamic object
may be JSON `null` (a `null` unit yields an Invalid DateTime). -/
def fromObjectOpt (y m : Option Int) (d h n : Int) : Option Int :=
  match y, m with
  | some y, some m => DateTimeFromObject y m d h n
  | _, _ => none

/-- Luxon `plus({days})`; an Invalid DateTime stays invalid. -/
def dtPlusDays (dt : Option Int) (days : Int) : Option Int :=
  dt.map (fun w => w + days * 1440)

/-- Lexicographic order of two civil timestamps given as
year/month/day/hour/minute tuples. -/
def lexLeDateTime (y1 m1 d1 h1 n1 y2 m2 d2 h2 n2 : Int) : Prop :=
  y1 < y2 ∨ (y1 = y2 ∧ (m1 < m2 ∨ (m1 = m2 ∧ (d1 < d2
    ∨ (d1 = d2 ∧ (h1 < h2 ∨ (h1 = h2 ∧ n1 ≤ n2)))))))

instance (y1 m1 d1 h1 n1 y2 m2 d2 h2 n2 : Int) :
    Decidable (lexLeDateTime y1 m1 d1 h1 n1 y2 m2 d2 h2 n2) := by
  unfold lexLeDateTime; infer_instance

/-- The leap-day contribution of year `y`. -/
def leapBit (y : Int) : Int := if isLeapYear y then 1 else 0

/-!
Persistent data model (the Prisma tables of §6) and the external interface
records.  Timestamps are integers; autoincrement ids are modelled as
table-length successors.
-/

/-- Row of the `instagramEventOrganizer` table. -/
structure InstagramEventOrganizer where
  id : Int
  username : String
  city : String
  contextClues : String
  lastUpdated : Int
deriving DecidableEq

/-- Row of the `instagramPost` table.  `mediaUrlsJson` stores
`JSON.stringify(getMediaUrls(post))`, i.e. a serialized `string[] | null`;
JSON serialization round-trips, so the field is modelled structurally. -/
structure InstagramPost where
  id : String
  url : String
  organizerId : Int
  caption : String
  postDate : Int
  mediaUrlsJson : Option (List String)
  completedAt : Option Int
deriving DecidableEq

/-- Row of the `instagramEvent` table.  `start` and `«end»` are UTC instants
in minutes; `none` models the serialization of an Invalid DateTime. -/
structure InstagramEvent where
  postID : String
  start : Option Int
  «end» : Option Int
  url : String
  title : String
  organizerId : Int
deriving DecidableEq

/-- The media type of an Instagram API post. -/
inductive MediaType where
  | image
  | carouselAlbum
  | video
  | other (tag : String)
deriving DecidableEq

/-- A child entry of a carousel album (`children{media_url, media_type}`);
`media_url` may be omitted. -/
structure InstagramApiChild where
  media_url : Option String
deriving DecidableEq

/-- A post as returned by the Instagram Graph API (`InstagramApiPost` of
`~~/types`), restricted to the fields the pipeline reads.  `timestamp` is an
instant (integer). -/
structure InstagramApiPost where
  id : String
  permalink : String
  caption : String
  timestamp : Int
  media_type : MediaType
  media_url : Option String
  children : Option (List InstagramApiChild)
deriving DecidableEq

/-- A configured source account (`InstagramSource` of `~~/types`). -/
structure InstagramSource where
  username : String
  city : String
  context_clues : List String
deriving DecidableEq

/-- The three utilization metrics of the `X-App-Usage` header; each key may
be absent from the parsed JSON. -/
structure AppUsage where
  call_count : Option Int
  total_cputime : Option Int
  total_time : Option Int
deriving DecidableEq

/-- The response of the post-fetching collaborator, as observed by
`fetchPosts`: the optional parsed `X-App-Usage` header, the optional error
object of the body, and the posts of `business_discovery.media.data`. -/
structure FetchResponse where
  xAppUsage : Option AppUsage
  error : Option String
  posts : List InstagramApiPost
deriving DecidableEq

/-- Hard failures thrown by the pipeline, by throw site. -/
inductive Err where
  | rateLimited (appUsage : AppUsage)
  | apiError (msg : String)
  | ocr (msg : String)
  | malformed (msg : String)
deriving DecidableEq

/-- Observable calls to the external collaborators, recorded as a trace. -/
inductive ExtCall where
  | ocrCall (urls : List String)
  | llmCall (prompt : String)
deriving DecidableEq

/-- The database state: the three logical tables. -/
structure DB where
  organizers : List InstagramEventOrganizer
  posts : List InstagramPost
  events : List InstagramEvent
deriving DecidableEq

/-- The environment of external collaborators and ambient time:
`fetchResponse` is the Instagram Graph API, `textDetection` the per-image
OCR service (`client.textDetection`: an optional full-text annotation, or a
rejection), `llmContent` the content of the single generated message for a
prompt (`none` models a response with no content), `currentYear` models
`new Date().getFullYear()` and `now` models `new Date()`. -/
structure Env where
  fetchResponse : InstagramEventOrganizer → FetchResponse
  textDetection : String → Except String (Option String)
  llmContent : String → Option GeneratedContent
  currentYear : Int
  now : Int

/-!
The pipeline functions of `src/utils/instagram.ts`, in source order.
Concurrent `Promise.all` fan-outs over independent units are sequentialized
by threading the `DB`; each unit keeps its own outcome, as in the source.
-/

/-- Per-image OCR collection (`fetchOcrResults`, lines 26-51): for each URL
the full-text annotation if present, else the empty string; results joined
with newline separators; any single-image rejection fails the whole call. -/
def fetchOcrResults (env : Env) (urls : List String) : Except String String :=
  (urls.mapM (fun url => (env.textDetection url).map (fun ann => ann.getD ""))).map
    (fun annotationsAll => String.intercalate "\n" annotationsAll)

/-- Rate-limit guard condition (line 70): any of the three metrics at or
above 100. -/
def rateLimitHit (appUsage : AppUsage) : Bool :=
  jsGe appUsage.call_count 100 || jsGe appUsage.total_cputime 100 || jsGe appUsage.total_time 100

/-- Body handling of `fetchPosts` (lines 78-84): an error object is a hard
failure with its message, otherwise the posts. -/
def fetchPostsBody (resp : FetchResponse) : Except Err (List InstagramApiPost) :=
  match resp.error with
  | some msg => .error (.apiError msg)
  | none => .ok resp.posts

/-- Fetch of the recent posts of an organizer (`fetchPosts`, lines 60-85):
if the `X-App-Usage` header is present and any metric is at or above 100,
fail with the rate-limit error; absence of the header skips the guard. -/
def fetchPosts (env : Env) (organizer : InstagramEventOrganizer) :
    Except Err (List InstagramApiPost) :=
  let resp := env.fetchResponse organizer
  match resp.xAppUsage with
  | some appUsage =>
    if rateLimitHit appUsage then .error (.rateLimited appUsage) else fetchPostsBody resp
  | none => fetchPostsBody resp

/-- Modelled from the spec: `instagramInitialPrompt` lives in the
repository file `utils/openai.ts`, which is not under `src/`; per §4.3 it
builds one prompt embedding the organizer context (handle, city, context
clues), the post content and the extracted text (nullable). -/
def instagramInitialPrompt (organizer : InstagramEventOrganizer) (post : InstagramPost)
    (ocrResult : Option String) : String :=
  organizer.username ++ " " ++ organizer.city ++ " " ++ organizer.contextClues
    ++ " " ++ post.caption ++ " " ++ ocrResult.getD ""

/-- Acceptance gate of `persistEvent` (lines 99-108): the conjunction, in
source order, deciding whether the sanitized result is persisted. -/
def eventAccepted (inference : OpenAiInstagramResult) : Bool :=
  inference.isEvent == true
  && inference.startDay.isSome
  && inference.startHourMilitaryTime.isSome
  && inference.endHourMilitaryTime.isSome
  && inference.startMinute.isSome
  && inference.endMinute.isSome
  && inference.endDay.isSome
  && inference.hasStartHourInPost == true
  && inference.isPastEvent == false

/-- The `instagramEvent` row built by `persistEvent` (lines 109-124): the
end instant is constructed from `(endYear, endMonth, startDay, endHour,
endMinute)` and then shifted by `endDay - startDay` days, letting the
calendar library absorb overflow; both instants are converted to UTC.  The
`getD 0` reads are guarded by the acceptance gate at the call site. -/
def builtEvent (inference : OpenAiInstagramResult) (post : InstagramPost)
    (organizer : InstagramEventOrganizer) : InstagramEvent :=
  let startDay := inference.startDay.getD 0
  let endInstant :=
    dtPlusDays
      (fromObjectOpt inference.endYear inference.endMonth startDay
        (inference.endHourMilitaryTime.getD 0) (inference.endMinute.getD 0))
      (inference.endDay.getD 0 - startDay)
  { postID := post.id
    start :=
      (fromObjectOpt inference.startYear inference.startMonth startDay
        (inference.startHourMilitaryTime.getD 0) (inference.startMinute.getD 0)).map toUTCMinutes
    «end» := endInstant.map toUTCMinutes
    url := post.url
    title := inference.title ++ " @ " ++ organizer.username
    organizerId := post.organizerId }

/-- Persistence step (`persistEvent`, lines 98-135): when the gate passes,
create the event row and set the completion timestamp of the post; in every
case the function returns `null` (line 134). -/
def persistEvent (now : Int) (inference : OpenAiInstagramResult) (post : InstagramPost)
    (organizer : InstagramEventOrganizer) (db : DB) : DB × Option InstagramEvent :=
  if eventAccepted inference then
    ({ organizers := db.organizers
       posts := db.posts.map (fun p => if p.id == post.id then { p with completedAt := some now } else p)
       events := db.events ++ [builtEvent inference post organizer] }, none)
  else (db, none)

/-- Inference call (`runInferenceOnPost`, lines 197-210): build the prompt,
obtain the generated content (absent content yields `null`), then sanitize.
The source passes the stored post where its signature declares an API post;
the model follows the value actually passed. -/
def runInferenceOnPost (env : Env) (organizer : InstagramEventOrganizer)
    (post : InstagramPost) (ocrResult : Option String) :
    List ExtCall × Except Err (Option OpenAiInstagramResult) :=
  let prompt := instagramInitialPrompt organizer post ocrResult
  match env.llmContent prompt with
  | none => ([.llmCall prompt], .ok none)
  | some generated =>
    ([.llmCall prompt],
      match postProcessOpenAiInstagramResponse env.currentYear generated with
      | .error msg => .error (.malformed msg)
      | .ok result => .ok (some result))

/-- Media-URL extraction (`getMediaUrls`, lines 212-234).  The truthiness
filter on carousel children drops both omitted and empty URLs. -/
def getMediaUrls (post : InstagramApiPost) : Option (List String) :=
  match post.media_type with
  | .image =>
    match post.media_url with
    | some url => some [url]
    | none => none
  | .carouselAlbum =>
    some (((post.children.getD []).map (fun child => child.media_url)).filterMap
      (fun mediaUrl =>
        match mediaUrl with
        | some url => if url == "" then none else some url
        | none => none))
  | .video => none
  | .other _ => none

/-- OCR stage (`extractTextFromPostImages`, lines 236-243): parse the stored
media URLs; `null` yields no text (not an error), otherwise run OCR.  The
first component is the trace of external calls. -/
def extractTextFromPostImages (env : Env) (post : InstagramPost) :
    List ExtCall × Except Err (Option String) :=
  match post.mediaUrlsJson with
  | none => ([], .ok none)
  | some mediaUrls =>
    ([.ocrCall mediaUrls],
      match fetchOcrResults env mediaUrls with
      | .error msg => .error (.ocr msg)
      | .ok text => .ok (some text))

/-- Per-post extraction (`extractEventFromPost`, lines 87-96): OCR, then
inference, then persistence; a `null` inference result short-circuits. -/
def extractEventFromPost (env : Env) (organizer : InstagramEventOrganizer)
    (post : InstagramPost) (db : DB) :
    List ExtCall × DB × Except Err (Option InstagramEvent) :=
  let ocrStep := extractTextFromPostImages env post
  match ocrStep.2 with
  | .error e => (ocrStep.1, db, .error e)
  | .ok imageText =>
    let infStep := runInferenceOnPost env organizer post imageText
    match infStep.2 with
    | .error e => (ocrStep.1 ++ infStep.1, db, .error e)
    | .ok none => (ocrStep.1 ++ infStep.1, db, .ok none)
    | .ok (some inference) =>
      let persisted := persistEvent env.now inference post organizer db
      (ocrStep.1 ++ infStep.1, persisted.1, .ok persisted.2)

/-- Organizer upsert (`getOrInsertOrganizer`, lines 245-260): return the
existing row by unique handle, else create one with `lastUpdated` at the
epoch; the autoincrement id is modelled as the successor of the table
length. -/
def getOrInsertOrganizer (source : InstagramSource) (db : DB) :
    DB × InstagramEventOrganizer :=
  match db.organizers.find? (fun o => o.username == source.username) with
  | some organizer => (db, organizer)
  | none =>
    let organizer : InstagramEventOrganizer :=
      { id := Int.ofNat db.organizers.length + 1
        username := source.username
        city := source.city
        contextClues := String.intercalate " " source.context_clues
        lastUpdated := 0 }
    ({ db with organizers := db.organizers ++ [organizer] }, organizer)

/-- Post create-if-absent (`persistPostNoneIfPresent`, lines 270-294): the
store-level unique constraint on the post id (Prisma error `P2002`) is
mapped to the `null` "already known" signal; otherwise the created row is
returned. -/
def persistPostNoneIfPresent (organizer : InstagramEventOrganizer)
    (post : InstagramApiPost) (db : DB) : DB × Option InstagramPost :=
  let mediaUrls := getMediaUrls post
  if db.posts.any (fun p => p.id == post.id) then (db, none)
  else
    let dbPost : InstagramPost :=
      { id := post.id
        url := post.permalink
        organizerId := organizer.id
        caption := post.caption
        postDate := post.timestamp
        mediaUrlsJson := mediaUrls
        completedAt := none }
    ({ db with posts := db.posts ++ [dbPost] }, some dbPost)

/-- Per-post orchestration (`handleInstagramPost`, lines 303-315): skip all
further processing of an already-known post, else run the extractors. -/
def handleInstagramPost (env : Env) (organizer : InstagramEventOrganizer)
    (apiPost : InstagramApiPost) (db : DB) :
    List ExtCall × DB × Except Err (Option InstagramEvent) :=
  let stored := persistPostNoneIfPresent organizer apiPost db
  match stored.2 with
  | none => ([], stored.1, .ok none)
  | some dbPost => extractEventFromPost env organizer dbPost stored.1

/-- Sequentialization of the per-post `Promise.all` fan-out of
`ingestEventsForOrganizer` (line 321): every post is processed and keeps
its own outcome. -/
def processPosts (env : Env) (organizer : InstagramEventOrganizer)
    (posts : List InstagramApiPost) (db : DB) :
    DB × List (Except Err (Option InstagramEvent)) :=
  match posts with
  | [] => (db, [])
  | post :: rest =>
    let step := handleInstagramPost env organizer post db
    let restStep := processPosts env organizer rest step.2.1
    (restStep.1, step.2.2 :: restStep.2)

/-- Whether any per-post outcome is a hard failure: a rejected promise makes
the joint `Promise.all` await throw. -/
def anyErrored (results : List (Except Err (Option InstagramEvent))) : Bool :=
  results.any (fun r =>
    match r with
    | .error _ => true
    | .ok _ => false)

/-- Collection of the non-null per-post results (lines 323-328). -/
def collectEvent : Except Err (Option InstagramEvent) → Option InstagramEvent
  | .ok maybeEvent => maybeEvent
  | .error _ => none

/-- Per-organizer ingestion (`ingestEventsForOrganizer`, lines 317-335): the
try/catch at the organizer boundary turns any failure — of the fetch or of
any post — into an empty event list for the run; effects of the individual
posts are kept, since each unit of the fan-out runs to completion on its
own. -/
def ingestEventsForOrganizer (env : Env) (organizer : InstagramEventOrganizer)
    (db : DB) : DB × List InstagramEvent :=
  match fetchPosts env organizer with
  | .error _ => (db, [])
  | .ok posts =>
    let step := processPosts env organizer posts db
    if anyErrored step.2 then (step.1, [])
    else (step.1, step.2.filterMap collectEvent)

/-- Single-source entry point (`scrapeInstagramEventsForUser`, lines
337-352), yielding the logged event count.  The `!filtered` guard of the
source can never fire (an array is always truthy); with an unknown username
the subsequent member access of `filtered[0]` aborts, modelled as `none`. -/
def scrapeInstagramEventsForUser (env : Env) (sources : List InstagramSource)
    (username : String) (db : DB) : Option (DB × Nat) :=
  let filtered := sources.filter (fun source => source.username == username)
  match filtered with
  | [] => none
  | source :: _ =>
    let orgStep := getOrInsertOrganizer source db
    let ingestStep := ingestEventsForOrganizer env orgStep.2 orgStep.1
    some (ingestStep.1, ingestStep.2.length)

/-- All-sources entry point (`scrapeAllInstagramEvents`, lines 355-368),
yielding the logged per-source event counts. -/
def scrapeAllInstagramEvents (env : Env) (sources : List InstagramSource)
    (db : DB) : DB × List (InstagramSource × Nat) :=
  match sources with
  | [] => (db, [])
  | source :: rest =>
    let orgStep := getOrInsertOrganizer source db
    let ingestStep := ingestEventsForOrganizer env orgStep.2 orgStep.1
    let restStep := scrapeAllInstagramEvents env rest ingestStep.1
    (restStep.1, (source, ingestStep.2.length) :: restStep.2)

/-- Grouping of the incomplete posts by organizer (`findPosts` with
`{completedAt: null}`, lines 403-416): one group per organizer row, holding
its posts lacking a completion timestamp. -/
def findPostsIncomplete (db : DB) :
    List (InstagramEventOrganizer × List InstagramPost) :=
  db.organizers.map (fun organization =>
    (organization,
      db.posts.filter (fun p => p.organizerId == organization.id && p.completedAt == none)))

/-- Sequentialization of the inner per-post `Promise.all` of the fixup pass
(line 376): rerun `extractEventFromPost` on each stored post. -/
def fixupPosts (env : Env) (organization : InstagramEventOrganizer)
    (posts : List InstagramPost) (db : DB) : List ExtCall × DB :=
  match posts with
  | [] => ([], db)
  | post :: rest =>
    let step := extractEventFromPost env organization post db
    let restStep := fixupPosts env organization rest step.2.1
    (step.1 ++ restStep.1, restStep.2)

/-- Sequentialization of the outer per-organizer `Promise.all` of the fixup
pass (line 375). -/
def fixupGroups (env : Env)
    (groups : List (InstagramEventOrganizer × List InstagramPost)) (db : DB) :
    List ExtCall × DB :=
  match groups with
  | [] => ([], db)
  | group :: rest =>
    let step := fixupPosts env group.1 group.2 db
    let restStep := fixupGroups env rest step.2
    (step.1 ++ restStep.1, restStep.2)

/-- Fixup entry point (`fixupInstagramIngestion`, lines 370-378): re-read
every post with no completion timestamp, grouped by organizer, and rerun the
extractors on each. -/
def fixupInstagramIngestion (env : Env) (db : DB) : List ExtCall × DB :=
  fixupGroups env (findPostsIncomplete db) db

/-!
Concrete fixtures for counterexamples and witnesses.
-/

/-- An organizer row. -/
def orgA : InstagramEventOrganizer :=
  { id := 1, username := "demo_user", city := "sf", contextClues := "music venue", lastUpdated := 0 }

/-- The empty database. -/
def dbEmpty : DB := { organizers := [], posts := [], events := [] }

/-- A stored post with one media URL and no completion timestamp. -/
def postA : InstagramPost :=
  { id := "p1", url := "https://ig/p1", organizerId := 1, caption := "Join us Friday!"
    postDate := 0, mediaUrlsJson := some ["img1"], completedAt := none }

/-- A parsed candidate whose inferred end hour precedes its start hour on
the same inferred day: every field is present and non-null, the flags pass
the acceptance gate. -/
def rawC1 : RawObject :=
  { isEvent := some true, title := some "Late Show"
    startHourMilitaryTime := some (some 20), endHourMilitaryTime := some (some 1)
    isPastEvent := some false, hasStartHourInPost := some true
    startMinute := some (some 0), endMinute := some (some 0)
    startDay := some (some 15), endDay := some (some 15)
    startMonth := some (some 6), endMonth := some (some 6)
    startYear := some (some 2024), endYear := some (some 2024) }

/-- A parsed candidate for a well-formed evening event
(2023-12-29, 20:00-22:00). -/
def goodRaw : RawObject :=
  { isEvent := some true, title := some "Live Music"
    startHourMilitaryTime := some (some 20), endHourMilitaryTime := some (some 22)
    isPastEvent := some false, hasStartHourInPost := some true
    startMinute := some (some 0), endMinute := some (some 0)
    startDay := some (some 29), endDay := some (some 29)
    startMonth := some (some 12), endMonth := some (some 12)
    startYear := some (some 2023), endYear := some (some 2023) }

/-- A parsed candidate missing every key. -/
def rawMissingAll : RawObject :=
  { isEvent := none, title := none
    startHourMilitaryTime := none, endHourMilitaryTime := none
    isPastEvent := none, hasStartHourInPost := none
    startMinute := none, endMinute := none
    startDay := none, endDay := none
    startMonth := none, endMonth := none
    startYear := none, endYear := none }

/-- An API post whose single image URL makes the OCR collaborator reject. -/
def apiPostBad : InstagramApiPost :=
  { id := "b1", permalink := "https://ig/b1", caption := "glitch", timestamp := 10
    media_type := .image, media_url := some "bad", children := none }

/-- An API video post (no media URLs, so OCR is skipped). -/
def apiPostGood : InstagramApiPost :=
  { id := "g1", permalink := "https://ig/g1", caption := "Live Music Friday", timestamp := 11
    media_type := .video, media_url := none, children := none }

/-- An environment where OCR rejects exactly the URL `bad` and the language
model always yields the well-formed candidate `goodRaw`. -/
def envC2 : Env :=
  { fetchResponse := fun _ => { xAppUsage := none, error := none, posts := [apiPostBad, apiPostGood] }
    textDetection := fun url => if url == "bad" then .error "ocr rejected" else .ok (some "Live Music 8pm")
    llmContent := fun _ => some (.parsed goodRaw)
    currentYear := 2023
    now := 99 }

/-- A database already holding `orgA` and the incomplete post `postA`. -/
def db9 : DB := { organizers := [orgA], posts := [postA], events := [] }

/-- A stored post sharing the external id of `apiPostBad`. -/
def postDup : InstagramPost :=
  { id := "b1", url := "https://ig/old-b1", organizerId := 1, caption := "old copy"
    postDate := 5, mediaUrlsJson := none, completedAt := none }

/-- A database already holding a post with external id `b1`. -/
def dbDup : DB := { organizers := [orgA], posts := [postDup], events := [] }

/-- A usage signal at the call-count threshold. -/
def usageAtLimit : AppUsage :=
  { call_count := some 100, total_cputime := some 7, total_time := some 9 }

/-- An environment whose post fetch reports the usage signal at the
threshold. -/
def envRL : Env :=
  { fetchResponse := fun _ => { xAppUsage := some usageAtLimit, error := none, posts := [apiPostGood] }
    textDetection := fun _ => .ok none
    llmContent := fun _ => some (.parsed goodRaw)
    currentYear := 2023
    now := 99 }

/-- Whether a persisted event row carries a valid end instant strictly
before its valid start instant. -/
def endBeforeStart (e : InstagramEvent) : Bool :=
  match e.start, e.«end» with
  | some s, some en => decide (en < s)
  | _, _ => false

/-- The sanitized inference result of the `goodRaw` candidate
(2023-12-29, 20:00-22:00). -/
def infW : OpenAiInstagramResult :=
  { isEvent := true, title := "Live Music"
    startHourMilitaryTime := some 20, endHourMilitaryTime := some 22
    isPastEvent := false, hasStartHourInPost := true
    startMinute := some 0, endMinute := some 0
    startDay := some 29, endDay := some 29
    startMonth := some 12, endMonth := some 12
    startYear := some 2023, endYear := some 2023 }

/-!
Shared helper lemmas about the pipeline.
-/

/-- `persistEvent` returns `null` on every input (line 134 of the source is
reached from both branches). -/
theorem persistEvent_snd_eq_none (now : Int) (inference : OpenAiInstagramResult)
    (post : InstagramPost) (organizer : InstagramEventOrganizer) (db : DB) :
    (persistEvent now inference post organizer db).2 = none := by
  unfold persistEvent; split <;> rfl

/-- The events table after `persistEvent`: the built row is appended exactly
when the acceptance gate passes. -/
theorem persistEvent_fst_events (now : Int) (inference : OpenAiInstagramResult)
    (post : InstagramPost) (organizer : InstagramEventOrganizer) (db : DB) :
    (persistEvent now inference post organizer db).1.events
      = (if eventAccepted inference then db.events ++ [builtEvent inference post organizer]
         else db.events) := by
  unfold persistEvent; split <;> rename_i h <;> simp [h]

/-- The shape validation failure: a parsed object lacking a required key is
rejected with the error of line 160. -/
theorem postProcess_error_of_not_hasAll (currentYear : Int) (o : RawObject)
    (hprop : hasAllProperties o = false) :
    postProcessOpenAiInstagramResponse currentYear (.parsed o)
      = .error "JSON does not contain expected fields" := by
  simp [postProcessOpenAiInstagramResponse, hprop]

/-- `extractEventFromPost` never returns an event. -/
theorem extract_collect_none (env : Env) (organizer : InstagramEventOrganizer)
    (post : InstagramPost) (db : DB) :
    collectEvent (extractEventFromPost env organizer post db).2.2 = none := by
  unfold extractEventFromPost
  cases h1 : (extractTextFromPostImages env post).2 with
  | error e => simp [h1, collectEvent]
  | ok t =>
    cases h2 : (runInferenceOnPost env organizer post t).2 with
    | error e => simp [h1, h2, collectEvent]
    | ok r =>
      cases r with
      | none => simp [h1, h2, collectEvent]
      | some inference => simp [h1, h2, collectEvent, persistEvent_snd_eq_none]

/-- `handleInstagramPost` never returns an event. -/
theorem handle_collect_none (env : Env) (organizer : InstagramEventOrganizer)
    (apiPost : InstagramApiPost) (db : DB) :
    collectEvent (handleInstagramPost env organizer apiPost db).2.2 = none := by
  unfold handleInstagramPost
  cases h : (persistPostNoneIfPresent organizer apiPost db).2 with
  | none => simp [h, collectEvent]
  | some dbPost => simp [h, extract_collect_none]

/-- Every post of the fan-out keeps its own outcome. -/
theorem processPosts_length (env : Env) (organizer : InstagramEventOrganizer)
    (posts : List InstagramApiPost) (db : DB) :
    (processPosts env organizer posts db).2.length = posts.length := by
  induction posts generalizing db with
  | nil => rfl
  | cons post rest ih => simp [processPosts, ih]

/-- No per-post outcome of the fan-out carries an event. -/
theorem processPosts_filterMap_nil (env : Env) (organizer : InstagramEventOrganizer)
    (posts : List InstagramApiPost) (db : DB) :
    (processPosts env organizer posts db).2.filterMap collectEvent = [] := by
  induction posts generalizing db with
  | nil => rfl
  | cons post rest ih =>
    simp [processPosts, List.filterMap_cons, handle_collect_none, ih]

/-- `ingestEventsForOrganizer` always returns the empty event list. -/
theorem ingest_snd_nil (env : Env) (organizer : InstagramEventOrganizer) (db : DB) :
    (ingestEventsForOrganizer env organizer db).2 = [] := by
  unfold ingestEventsForOrganizer
  cases h : fetchPosts env organizer with
  | error e => simp [h]
  | ok posts =>
    simp only [h]
    split
    · rfl
    · simp [processPosts_filterMap_nil]

/-- Every logged per-source count of the all-sources entry point is zero. -/
theorem scrapeAll_counts_zero (env : Env) (sources : List InstagramSource) (db : DB) :
    (scrapeAllInstagramEvents env sources db).2.map Prod.snd
      = List.replicate sources.length 0 := by
  induction sources generalizing db with
  | nil => rfl
  | cons source rest ih =>
    simp [scrapeAllInstagramEvents, ih, ingest_snd_nil, List.replicate_succ]

/-- The all-sources entry point reports one count per configured source. -/
theorem scrapeAll_sources (env : Env) (sources : List InstagramSource) (db : DB) :
    (scrapeAllInstagramEvents env sources db).2.map Prod.fst = sources := by
  induction sources generalizing db with
  | nil => rfl
  | cons source rest ih => simp [scrapeAllInstagramEvents, ih]

/-- The single-source entry point always logs a zero event count. -/
theorem scrapeUser_count_zero (env : Env) (sources : List InstagramSource)
    (username : String) (db : DB) :
    ((scrapeInstagramEventsForUser env sources username db).map Prod.snd).getD 0 = 0 := by
  unfold scrapeInstagramEventsForUser
  cases h : sources.filter (fun source => source.username == username) with
  | nil => rfl
  | cons source rest => simp [ingest_snd_nil]

/-!
Claim theorems.
-/

/-- C3: a sanitized inference result is persisted as an event row exactly
when the acceptance gate passes — `isEvent` true, `hasStartHourInPost` true,
`isPastEvent` false, and the start/end day, hour and minute fields all
non-null — and every other combination adds no event and raises no error
(the function is total and returns `null`). -/
theorem persistEvent_acceptance_gate_iff (now : Int) (inference : OpenAiInstagramResult)
    (post : InstagramPost) (organizer : InstagramEventOrganizer) (db : DB) :
    ((persistEvent now inference post organizer db).1.events
      = (if eventAccepted inference then db.events ++ [builtEvent inference post organizer]
         else db.events))
    ∧ (persistEvent now inference post organizer db).2 = none
    ∧ (eventAccepted inference = true ↔
        (inference.isEvent = true ∧ inference.hasStartHourInPost = true
          ∧ inference.isPastEvent = false
          ∧ inference.startDay ≠ none ∧ inference.endDay ≠ none
          ∧ inference.startHourMilitaryTime ≠ none ∧ inference.endHourMilitaryTime ≠ none
          ∧ inference.startMinute ≠ none ∧ inference.endMinute ≠ none)) := by
  refine ⟨persistEvent_fst_events now inference post organizer db,
          persistEvent_snd_eq_none now inference post organizer db, ?_⟩
  simp only [eventAccepted, Bool.and_eq_true, beq_iff_eq, Option.isSome_iff_ne_none]
  tauto

/-- C3 witness: the gate passes on the sanitized `goodRaw` candidate and the
event row is appended. -/
theorem persistEvent_acceptance_gate_iff_witness :
    (persistEvent 99
        { isEvent := true, title := "Live Music"
          startHourMilitaryTime := some 20, endHourMilitaryTime := some 22
          isPastEvent := false, hasStartHourInPost := true
          startMinute := some 0, endMinute := some 0
          startDay := some 29, endDay := some 29
          startMonth := some 12, endMonth := some 12
          startYear := some 2023, endYear := some 2023 } postA orgA dbEmpty).1.events
      = (if eventAccepted
            { isEvent := true, title := "Live Music"
              startHourMilitaryTime := some 20, endHourMilitaryTime := some 22
              isPastEvent := false, hasStartHourInPost := true
              startMinute := some 0, endMinute := some 0
              startDay := some 29, endDay := some 29
              startMonth := some 12, endMonth := some 12
              startYear := some 2023, endYear := some 2023 }
         then dbEmpty.events
                ++ [builtEvent
                      { isEvent := true, title := "Live Music"
                        startHourMilitaryTime := some 20, endHourMilitaryTime := some 22
                        isPastEvent := false, hasStartHourInPost := true
                        startMinute := some 0, endMinute := some 0
                        startDay := some 29, endDay := some 29
                        startMonth := some 12, endMonth := some 12
                        startYear := some 2023, endYear := some 2023 } postA orgA]
         else dbEmpty.events) :=
  (persistEvent_acceptance_gate_iff 99 _ postA orgA dbEmpty).1

/-- C4: with `startMonth = 12`, `endMonth = 1`, `startYear = 2024` and
`endYear` null, the field-completion pass yields `endYear = 2025` — the
year-rollover rule, running after the copy rule, overrides the plain copy of
`startYear`. -/
theorem rollover_rule_overrides_copy (currentYear : Int) (iE iP hS : Bool) (t : String)
    (sh eh sMin eMin sD eD : Option Int) :
    (postProcessOpenAiInstagramResponse currentYear (.parsed
      { isEvent := some iE, title := some t
        startHourMilitaryTime := some sh, endHourMilitaryTime := some eh
        isPastEvent := some iP, hasStartHourInPost := some hS
        startMinute := some sMin, endMinute := some eMin
        startDay := some sD, endDay := some eD
        startMonth := some (some 12), endMonth := some (some 1)
        startYear := some (some 2024), endYear := some none })).map
      (fun r => r.endYear) = .ok (some 2025) := by
  rfl

/-- C4 witness: the rollover at a concrete candidate. -/
theorem rollover_rule_overrides_copy_witness :
    (postProcessOpenAiInstagramResponse 2024 (.parsed
      { isEvent := some true, title := some "NYE"
        startHourMilitaryTime := some (some 21), endHourMilitaryTime := some (some 1)
        isPastEvent := some false, hasStartHourInPost := some true
        startMinute := some (some 0), endMinute := some (some 0)
        startDay := some (some 31), endDay := some (some 1)
        startMonth := some (some 12), endMonth := some (some 1)
        startYear := some (some 2024), endYear := some none })).map
      (fun r => r.endYear) = .ok (some 2025) :=
  rollover_rule_overrides_copy 2024 true false true "NYE"
    (some 21) (some 1) (some 0) (some 0) (some 31) (some 1)

/-- C5: with `startHourMilitaryTime = 23` and `endHourMilitaryTime` null,
the completion pass sets the end hour to `23 + 2`, and since that exceeds 23
it subtracts 24 and increments the end day, yielding end hour `1` and end
day `startDay + 1` by exact integer arithmetic. -/
theorem end_hour_completion_carry (currentYear : Int) (iE iP hS : Bool) (t : String)
    (sMin eMin eD sM eM sY eY : Option Int) (d : Int) :
    (postProcessOpenAiInstagramResponse currentYear (.parsed
      { isEvent := some iE, title := some t
        startHourMilitaryTime := some (some 23), endHourMilitaryTime := some none
        isPastEvent := some iP, hasStartHourInPost := some hS
        startMinute := some sMin, endMinute := some eMin
        startDay := some (some d), endDay := some eD
        startMonth := some sM, endMonth := some eM
        startYear := some sY, endYear := some eY })).map
      (fun r => (r.endHourMilitaryTime, r.endDay)) = .ok (some 1, some (d + 1)) := by
  rfl

/-- C5 witness: the carry at a concrete candidate. -/
theorem end_hour_completion_carry_witness :
    (postProcessOpenAiInstagramResponse 2024 (.parsed
      { isEvent := some true, title := some "Night"
        startHourMilitaryTime := some (some 23), endHourMilitaryTime := some none
        isPastEvent := some false, hasStartHourInPost := some true
        startMinute := some (some 30), endMinute := some none
        startDay := some (some 14), endDay := some none
        startMonth := some (some 7), endMonth := some none
        startYear := some (some 2024), endYear := some none })).map
      (fun r => (r.endHourMilitaryTime, r.endDay)) = .ok (some 1, some (14 + 1)) :=
  end_hour_completion_carry 2024 true false true "Night"
    (some 30) none none (some 7) none (some 2024) none 14

/-- C6: a parsed candidate missing any one of the fourteen required keys is
rejected by the shape validation with a hard failure, and a run whose
generated content parses to such an object creates no event row (the
database is unchanged by the per-post extraction). -/
theorem missing_key_hard_failure (currentYear : Int) (o : RawObject)
    (h : o.isEvent = none ∨ o.title = none ∨ o.startHourMilitaryTime = none
      ∨ o.endHourMilitaryTime = none ∨ o.isPastEvent = none ∨ o.hasStartHourInPost = none
      ∨ o.startMinute = none ∨ o.endMinute = none ∨ o.startDay = none ∨ o.endDay = none
      ∨ o.startMonth = none ∨ o.endMonth = none ∨ o.startYear = none ∨ o.endYear = none) :
    postProcessOpenAiInstagramResponse currentYear (.parsed o)
      = .error "JSON does not contain expected fields"
    ∧ ∀ env organizer post db, env.llmContent = (fun _ => some (.parsed o)) →
        (extractEventFromPost env organizer post db).2.1 = db := by
  have hprop : hasAllProperties o = false := by
    rcases h with h|h|h|h|h|h|h|h|h|h|h|h|h|h <;> simp [hasAllProperties, h]
  refine ⟨postProcess_error_of_not_hasAll currentYear o hprop, ?_⟩
  intro env organizer post db hllm
  unfold extractEventFromPost
  cases h1 : (extractTextFromPostImages env post).2 with
  | error e => simp [h1]
  | ok t =>
    have h2 : (runInferenceOnPost env organizer post t).2
        = .error (.malformed "JSON does not contain expected fields") := by
      unfold runInferenceOnPost
      simp only [hllm]
      simp [postProcess_error_of_not_hasAll env.currentYear o hprop]
    simp [h1, h2]

/-- C6 witness: the candidate missing every key is rejected and leaves the
database unchanged. -/
theorem missing_key_hard_failure_witness :
    postProcessOpenAiInstagramResponse 2023 (.parsed rawMissingAll)
      = .error "JSON does not contain expected fields"
    ∧ ∀ env organizer post db,
        env.llmContent = (fun _ => some (.parsed rawMissingAll)) →
        (extractEventFromPost env organizer post db).2.1 = db :=
  missing_key_hard_failure 2023 rawMissingAll (Or.inl rfl)

/-- C7: a post whose external id is already stored makes the create-if-absent
step return the `null` "already known" signal with the store unchanged, and
the caller then skips all further processing — no external call is made, no
post row and no event row is created, so replaying the post is idempotent. -/
theorem duplicate_post_idempotent (env : Env) (organizer : InstagramEventOrganizer)
    (apiPost : InstagramApiPost) (db : DB)
    (h : db.posts.any (fun p => p.id == apiPost.id) = true) :
    persistPostNoneIfPresent organizer apiPost db = (db, none)
    ∧ handleInstagramPost env organizer apiPost db = ([], db, .ok none) := by
  have h1 : persistPostNoneIfPresent organizer apiPost db = (db, none) := by
    unfold persistPostNoneIfPresent
    simp [h]
  refine ⟨h1, ?_⟩
  unfold handleInstagramPost
  rw [h1]

/-- C7 witness: replaying the post with the already-stored id `b1`. -/
theorem duplicate_post_idempotent_witness :
    persistPostNoneIfPresent orgA apiPostBad dbDup = (dbDup, none)
    ∧ handleInstagramPost envC2 orgA apiPostBad dbDup = ([], dbDup, .ok none) :=
  duplicate_post_idempotent envC2 orgA apiPostBad dbDup rfl

/-- C10: `persistEvent` returns `null` on every input, even when the gate
passes and an event row is created and the post is marked complete; hence
the per-post extraction and orchestration never return an event, every
per-organizer ingestion returns an empty list, and the aggregate counts
logged by both top-level entry points are always zero, regardless of how
many events were persisted. -/
theorem pipeline_always_returns_no_events :
    (∀ now inference post organizer db,
      (persistEvent now inference post organizer db).2 = none)
    ∧ (∀ now inference post organizer db,
        (persistEvent now inference post organizer db).1.events
          = (if eventAccepted inference then db.events ++ [builtEvent inference post organizer]
             else db.events))
    ∧ (∀ env organizer post db,
        collectEvent (extractEventFromPost env organizer post db).2.2 = none)
    ∧ (∀ env organizer apiPost db,
        collectEvent (handleInstagramPost env organizer apiPost db).2.2 = none)
    ∧ (∀ env organizer db, (ingestEventsForOrganizer env organizer db).2 = [])
    ∧ (∀ env sources db,
        (scrapeAllInstagramEvents env sources db).2.map Prod.snd
          = List.replicate sources.length 0)
    ∧ (∀ env sources username db,
        ((scrapeInstagramEventsForUser env sources username db).map Prod.snd).getD 0 = 0) :=
  ⟨persistEvent_snd_eq_none, persistEvent_fst_events, extract_collect_none,
   handle_collect_none, ingest_snd_nil, scrapeAll_counts_zero, scrapeUser_count_zero⟩

/-- C10 witness: a run over `envC2` persists one event yet both the
per-organizer list and the logged count are empty. -/
theorem pipeline_always_returns_no_events_witness :
    (ingestEventsForOrganizer envC2 orgA dbEmpty).2 = []
    ∧ ((scrapeInstagramEventsForUser envC2 [⟨"demo_user", "sf", ["music"]⟩]
          "demo_user" dbEmpty).map Prod.snd).getD 0 = 0 :=
  ⟨pipeline_always_returns_no_events.2.2.2.2.1 envC2 orgA dbEmpty,
   pipeline_always_returns_no_events.2.2.2.2.2.2 envC2 [⟨"demo_user", "sf", ["music"]⟩]
     "demo_user" dbEmpty⟩

/-- C2 counterexample: with `envC2`, the first post of the organizer fails
hard at its OCR stage while the sibling post is fully processed — the run
persists the sibling event row into the database — yet the organizer-level
catch discards the per-post results, so the ingestion returns the empty
event list: sibling events are not returned for that run. -/
theorem sibling_events_not_returned_counterexample :
    anyErrored (processPosts envC2 orgA [apiPostBad, apiPostGood] dbEmpty).2 = true
    ∧ (ingestEventsForOrganizer envC2 orgA dbEmpty).1.events.length = 1
    ∧ (ingestEventsForOrganizer envC2 orgA dbEmpty).2 = [] := by
  refine ⟨rfl, rfl, rfl⟩

/-- C2 (amended): a hard failure while processing one post is caught at the
organizer boundary, not the post boundary — every sibling post of the same
organizer is still processed and its store effects kept, but the organizer
ingestion returns an empty event list for that run, so no sibling event is
returned. -/
theorem organizer_boundary_failure_isolation (env : Env)
    (organizer : InstagramEventOrganizer) (db : DB) (posts : List InstagramApiPost)
    (hfetch : fetchPosts env organizer = .ok posts)
    (herr : anyErrored (processPosts env organizer posts db).2 = true) :
    ingestEventsForOrganizer env organizer db = ((processPosts env organizer posts db).1, [])
    ∧ (processPosts env organizer posts db).2.length = posts.length := by
  constructor
  · unfold ingestEventsForOrganizer
    rw [hfetch]
    simp [herr]
  · exact processPosts_length env organizer posts db

/-- C2 witness: the organizer-boundary behaviour at the concrete failing
run of `envC2`. -/
theorem organizer_boundary_failure_isolation_witness :
    ingestEventsForOrganizer envC2 orgA dbEmpty
      = ((processPosts envC2 orgA [apiPostBad, apiPostGood] dbEmpty).1, [])
    ∧ (processPosts envC2 orgA [apiPostBad, apiPostGood] dbEmpty).2.length = 2 :=
  organizer_boundary_failure_isolation envC2 orgA dbEmpty [apiPostBad, apiPostGood] rfl rfl

/-- C8: the post fetch fails with the rate-limit error exactly when the
usage signal is present and reports any of call count, CPU time or total
time at or above 100 (an absent signal continues); the failure is absorbed
at the organizer boundary, which returns an untouched store and an empty
list, and the all-sources run still reports one count per configured
source. -/
theorem rate_limit_halt_iff_and_isolated :
    (∀ env organizer,
      (∃ u, fetchPosts env organizer = .error (.rateLimited u)) ↔
      (match (env.fetchResponse organizer).xAppUsage with
       | none => False
       | some u =>
         (jsGe u.call_count 100 || jsGe u.total_cputime 100 || jsGe u.total_time 100) = true))
    ∧ (∀ env organizer db,
        (∃ u, fetchPosts env organizer = .error (.rateLimited u)) →
        ingestEventsForOrganizer env organizer db = (db, []))
    ∧ (∀ env sources db,
        (scrapeAllInstagramEvents env sources db).2.map Prod.fst = sources) := by
  refine ⟨?_, ?_, fun env sources db => scrapeAll_sources env sources db⟩
  · intro env organizer
    constructor
    · rintro ⟨u, hu⟩
      simp only [fetchPosts] at hu
      cases hh : (env.fetchResponse organizer).xAppUsage with
      | none =>
        rw [hh] at hu
        simp only [fetchPostsBody] at hu
        cases herr : (env.fetchResponse organizer).error <;> simp [herr] at hu
      | some u' =>
        rw [hh] at hu
        by_cases hr : rateLimitHit u' = true
        · simpa [rateLimitHit] using hr
        · simp only [hr, if_false, Bool.false_eq_true, reduceIte] at hu
          simp only [fetchPostsBody] at hu
          cases herr : (env.fetchResponse organizer).error <;> simp [herr] at hu
    · intro h
      cases hh : (env.fetchResponse organizer).xAppUsage with
      | none => rw [hh] at h; exact absurd h (by simp)
      | some u' =>
        rw [hh] at h
        have hr : rateLimitHit u' = true := by simpa [rateLimitHit] using h
        exact ⟨u', by simp only [fetchPosts]; rw [hh]; simp [hr]⟩
  · rintro env organizer db ⟨u, hu⟩
    unfold ingestEventsForOrganizer
    rw [hu]

/-- C8 witness: with the usage signal at `call_count = 100` the fetch fails
rate-limited and the organizer ingestion returns an untouched store and an
empty list. -/
theorem rate_limit_halt_iff_and_isolated_witness :
    (∃ u, fetchPosts envRL orgA = .error (.rateLimited u))
    ∧ ingestEventsForOrganizer envRL orgA dbEmpty = (dbEmpty, []) :=
  ⟨⟨usageAtLimit, rfl⟩,
    rate_limit_halt_iff_and_isolated.2.1 envRL orgA dbEmpty ⟨usageAtLimit, rfl⟩⟩

/-!
Trace lemmas for the fixup pass.
-/

/-- The per-post extraction of a post with stored media URLs always invokes
the OCR collaborator on exactly those URLs. -/
theorem extract_trace_has_ocr (env : Env) (organizer : InstagramEventOrganizer)
    (post : InstagramPost) (db : DB) (urls : List String)
    (h : post.mediaUrlsJson = some urls) :
    ExtCall.ocrCall urls ∈ (extractEventFromPost env organizer post db).1 := by
  have h1 : extractTextFromPostImages env post
      = ([.ocrCall urls],
          match fetchOcrResults env urls with
          | .error msg => .error (.ocr msg)
          | .ok text => .ok (some text)) := by
    unfold extractTextFromPostImages
    rw [h]
  unfold extractEventFromPost
  cases h2 : (extractTextFromPostImages env post).2 with
  | error e =>
    have hfst : (extractTextFromPostImages env post).1 = [.ocrCall urls] := by rw [h1]
    simp [hfst, h2]
  | ok t =>
    have hfst : (extractTextFromPostImages env post).1 = [.ocrCall urls] := by rw [h1]
    cases h3 : (runInferenceOnPost env organizer post t).2 with
    | error e => simp [hfst, h2, h3]
    | ok r => cases r <;> simp [hfst, h2, h3]

/-- Membership of the OCR call in the trace of the inner fixup fold. -/
theorem fixupPosts_trace_has_ocr (env : Env) (organization : InstagramEventOrganizer)
    (posts : List InstagramPost) (db : DB) (post : InstagramPost) (urls : List String)
    (hmem : post ∈ posts) (h : post.mediaUrlsJson = some urls) :
    ExtCall.ocrCall urls ∈ (fixupPosts env organization posts db).1 := by
  induction posts generalizing db with
  | nil => cases hmem
  | cons q rest ih =>
    rcases List.mem_cons.mp hmem with hq | hrest
    · subst hq
      simp only [fixupPosts, List.mem_append]
      exact Or.inl (extract_trace_has_ocr env organization post db urls h)
    · simp only [fixupPosts, List.mem_append]
      exact Or.inr (ih _ hrest)

/-- Membership of the OCR call in the trace of the outer fixup fold. -/
theorem fixupGroups_trace_has_ocr (env : Env)
    (groups : List (InstagramEventOrganizer × List InstagramPost)) (db : DB)
    (organization : InstagramEventOrganizer) (posts : List InstagramPost)
    (post : InstagramPost) (urls : List String)
    (hg : (organization, posts) ∈ groups) (hmem : post ∈ posts)
    (h : post.mediaUrlsJson = some urls) :
    ExtCall.ocrCall urls ∈ (fixupGroups env groups db).1 := by
  induction groups generalizing db with
  | nil => cases hg
  | cons g rest ih =>
    rcases List.mem_cons.mp hg with hgq | hgrest
    · subst hgq
      simp only [fixupGroups, List.mem_append]
      exact Or.inl (fixupPosts_trace_has_ocr env organization posts db post urls hmem h)
    · simp only [fixupGroups, List.mem_append]
      exact Or.inr (ih _ hgrest)

/-- C9 counterexample: the fixup pass over the stored incomplete post `postA`
invokes the OCR collaborator on the stored media URLs — OCR is re-run during
fixup, not skipped. -/
theorem fixup_runs_ocr_counterexample :
    ExtCall.ocrCall ["img1"] ∈ (fixupInstagramIngestion envC2 db9).1 := by
  decide

/-- C9 (amended): for every stored post with a null completion timestamp,
the fixup entry point reruns the full extraction — OCR included — on the
stored caption and media data: the stored media URLs of each incomplete post
are fed to the OCR collaborator again during fixup. -/
theorem fixup_reruns_ocr_on_stored_media (env : Env) (db : DB)
    (organization : InstagramEventOrganizer) (posts : List InstagramPost)
    (post : InstagramPost) (urls : List String)
    (hg : (organization, posts) ∈ findPostsIncomplete db) (hmem : post ∈ posts)
    (h : post.mediaUrlsJson = some urls) :
    ExtCall.ocrCall urls ∈ (fixupInstagramIngestion env db).1 := by
  unfold fixupInstagramIngestion
  exact fixupGroups_trace_has_ocr env (findPostsIncomplete db) db organization posts post urls hg hmem h

/-- C9 witness: the amended theorem at the concrete database `db9`. -/
theorem fixup_reruns_ocr_on_stored_media_witness :
    ExtCall.ocrCall ["img1"] ∈ (fixupInstagramIngestion envRL db9).1 :=
  fixup_reruns_ocr_on_stored_media envRL db9 orgA [postA] postA ["img1"]
    (by decide) (by decide) rfl

/-!
Calendar arithmetic lemmas for the end-versus-start comparison.
-/

/-- The bit contributed by a leap year is zero or one. -/
theorem leapBit_cases (y : Int) : leapBit y = 0 ∨ leapBit y = 1 := by
  unfold leapBit; split <;> simp

/-- Stepping `yearDays` by one year adds 365 plus the leap bit. -/
theorem yearDays_succ (y : Int) :
    yearDays (y + 1) = yearDays y + 365 + leapBit y := by
  unfold yearDays leapBit isLeapYear
  by_cases h4 : y % 4 = 0 <;> by_cases h100 : y % 100 = 0 <;> by_cases h400 : y % 400 = 0 <;>
    simp [h4, h100, h400] <;> omega

/-- `yearDays` is monotone. -/
theorem yearDays_mono (a b : Int) (h : a ≤ b) : yearDays a ≤ yearDays b := by
  refine Int.le_induction (P := fun n => yearDays a ≤ yearDays n) ?_ ?_ b h
  · exact le_refl _
  · intro n _ ih
    have hs := yearDays_succ n
    have hb := leapBit_cases n
    omega

/-- A strictly later year contributes at least a full year of days beyond
the leap bit. -/
theorem yearDays_step_le (y1 y2 : Int) (h : y1 < y2) :
    yearDays y1 + 365 + leapBit y1 ≤ yearDays y2 := by
  have h1 := yearDays_succ y1
  have h2 := yearDays_mono (y1 + 1) y2 (by omega)
  omega

/-- The offset of a valid day within its year is at most `364 + leapBit`. -/
theorem daysBeforeMonth_add_le (y m d : Int) (h1 : 1 ≤ m) (h2 : m ≤ 12)
    (h3 : d ≤ daysInMonth y m) :
    daysBeforeMonth y m + d - 1 ≤ 364 + leapBit y := by
  unfold leapBit
  by_cases hL : isLeapYear y = true <;>
    interval_cases m <;>
    simp [daysBeforeMonth, daysInMonth, hL] at h3 ⊢ <;>
    omega

/-- The cumulative days before a month of the year are nonnegative. -/
theorem daysBeforeMonth_nonneg (y m : Int) (h1 : 1 ≤ m) (h2 : m ≤ 12) :
    0 ≤ daysBeforeMonth y m := by
  by_cases hL : isLeapYear y = true <;>
    interval_cases m <;>
    simp [daysBeforeMonth, hL]

/-- A full earlier month fits before the cumulative days of a later month. -/
theorem daysBeforeMonth_mono (y m1 m2 : Int) (h1 : 1 ≤ m1) (h2 : m1 < m2) (h3 : m2 ≤ 12) :
    daysBeforeMonth y m1 + daysInMonth y m1 ≤ daysBeforeMonth y m2 := by
  have h4 : m1 ≤ 11 := by omega
  by_cases hL : isLeapYear y = true <;>
    interval_cases m1 <;> interval_cases m2 <;>
    simp [daysBeforeMonth, daysInMonth, hL]

/-- A date of a strictly earlier year has a strictly smaller day number. -/
theorem daysFromCivil_lt_of_year_lt (y1 m1 d1 y2 m2 d2 : Int)
    (hy : y1 < y2) (hm1 : 1 ≤ m1) (hm1' : m1 ≤ 12) (hd1' : d1 ≤ daysInMonth y1 m1)
    (hm2 : 1 ≤ m2) (hm2' : m2 ≤ 12) (hd2 : 1 ≤ d2) :
    daysFromCivil y1 m1 d1 < daysFromCivil y2 m2 d2 := by
  have hA := daysBeforeMonth_add_le y1 m1 d1 hm1 hm1' hd1'
  have hB := daysBeforeMonth_nonneg y2 m2 hm2 hm2'
  have hD := yearDays_step_le y1 y2 hy
  unfold daysFromCivil
  omega

/-- Monotonicity of the wall-clock instant in the lexicographic order of the
unit tuples, for in-range units (the second day may exceed its month, as
produced by the delta-shift construction). -/
theorem wallMinutes_le_of_lex (y1 m1 d1 h1 n1 y2 m2 d2 h2 n2 : Int)
    (hm1 : 1 ≤ m1) (hm1' : m1 ≤ 12) (hm2 : 1 ≤ m2) (hm2' : m2 ≤ 12)
    (hd1 : 1 ≤ d1) (hd1' : d1 ≤ daysInMonth y1 m1) (hd2 : 1 ≤ d2)
    (hh1 : 0 ≤ h1) (hh1' : h1 ≤ 23) (hh2 : 0 ≤ h2) (hh2' : h2 ≤ 23)
    (hn1 : 0 ≤ n1) (hn1' : n1 ≤ 59) (hn2 : 0 ≤ n2) (hn2' : n2 ≤ 59)
    (hlex : lexLeDateTime y1 m1 d1 h1 n1 y2 m2 d2 h2 n2) :
    wallMinutes y1 m1 d1 h1 n1 ≤ wallMinutes y2 m2 d2 h2 n2 := by
  unfold lexLeDateTime at hlex
  rcases hlex with hy | ⟨hy, hm | ⟨hm, hd | ⟨hd, hh | ⟨hh, hn⟩⟩⟩⟩
  · have hc := daysFromCivil_lt_of_year_lt y1 m1 d1 y2 m2 d2 hy hm1 hm1' hd1' hm2 hm2' hd2
    unfold wallMinutes
    omega
  · subst hy
    have hE := daysBeforeMonth_mono y1 m1 m2 hm1 hm hm2'
    unfold wallMinutes daysFromCivil
    omega
  · subst hy; subst hm
    unfold wallMinutes daysFromCivil
    omega
  · subst hy; subst hm; subst hd
    unfold wallMinutes
    omega
  · subst hy; subst hm; subst hd; subst hh
    unfold wallMinutes
    omega

/-- C1 counterexample: the candidate `rawC1` passes sanitization and the
acceptance gate, and the event row persisted for it carries a valid end
instant strictly before its valid start instant (the inference placed the
end hour before the start hour on the same inferred day). -/
theorem end_before_start_counterexample :
    (postProcessOpenAiInstagramResponse 2024 (.parsed rawC1)).map (fun inference =>
      (eventAccepted inference,
        (persistEvent 99 inference postA orgA dbEmpty).1.events.map endBeforeStart))
      = .ok (true, [true]) := by
  rfl

/-- C1 (amended): the end instant of a persisted accepted event is at or
after its start instant whenever the completed end tuple (year, month, day,
hour, minute) is lexicographically at or after the start tuple, the start
units are a valid calendar date-time, and the start day is also a valid day
of the end month — without those orderings the gate still accepts, and the
persisted row may carry an end instant before its start instant. -/
theorem persistEvent_end_ge_start_for_lex_ordered_fields
    (now : Int) (inference : OpenAiInstagramResult) (post : InstagramPost)
    (organizer : InstagramEventOrganizer) (db : DB)
    (sY sM sD sH sN eY eM eD eH eN : Int)
    (hsY : inference.startYear = some sY) (hsM : inference.startMonth = some sM)
    (hsD : inference.startDay = some sD) (hsH : inference.startHourMilitaryTime = some sH)
    (hsN : inference.startMinute = some sN)
    (heY : inference.endYear = some eY) (heM : inference.endMonth = some eM)
    (heD : inference.endDay = some eD) (heH : inference.endHourMilitaryTime = some eH)
    (heN : inference.endMinute = some eN)
    (hacc : eventAccepted inference = true)
    (hvs : fromObjectValid sY sM sD sH sN)
    (hve : fromObjectValid eY eM sD eH eN)
    (heD1 : 1 ≤ eD)
    (hlex : lexLeDateTime sY sM sD sH sN eY eM eD eH eN) :
    (persistEvent now inference post organizer db).1.events
      = db.events ++ [builtEvent inference post organizer]
    ∧ ∃ s e, (builtEvent inference post organizer).start = some s
        ∧ (builtEvent inference post organizer).«end» = some e
        ∧ s ≤ e := by
  have hstart : (builtEvent inference post organizer).start
      = some (toUTCMinutes (wallMinutes sY sM sD sH sN)) := by
    simp only [builtEvent]
    rw [hsY, hsM, hsD, hsH, hsN]
    simp only [Option.getD_some, fromObjectOpt]
    unfold DateTimeFromObject
    rw [if_pos hvs]
    rfl
  have hend : (builtEvent inference post organizer).«end»
      = some (toUTCMinutes (wallMinutes eY eM sD eH eN + (eD - sD) * 1440)) := by
    simp only [builtEvent]
    rw [heY, heM, hsD, heH, heN, heD]
    simp only [Option.getD_some, fromObjectOpt, dtPlusDays]
    unfold DateTimeFromObject
    rw [if_pos hve]
    rfl
  constructor
  · rw [persistEvent_fst_events now inference post organizer db, if_pos hacc]
  · obtain ⟨hm1, hm1', hd1, hd1', hh1, hh1', hn1, hn1'⟩ := hvs
    obtain ⟨hm2, hm2', _, _, hh2, hh2', hn2, hn2'⟩ := hve
    refine ⟨toUTCMinutes (wallMinutes sY sM sD sH sN),
            toUTCMinutes (wallMinutes eY eM sD eH eN + (eD - sD) * 1440),
            hstart, hend, ?_⟩
    have key : wallMinutes eY eM sD eH eN + (eD - sD) * 1440
        = wallMinutes eY eM eD eH eN := by
      unfold wallMinutes daysFromCivil
      ring
    have hle := wallMinutes_le_of_lex sY sM sD sH sN eY eM eD eH eN
      hm1 hm1' hm2 hm2' hd1 hd1' heD1 hh1 hh1' hh2 hh2' hn1 hn1' hn2 hn2' hlex
    rw [key]
    unfold toUTCMinutes
    omega

/-- C1 witness: the amended theorem at the concrete accepted inference
`infW` (2023-12-29, 20:00 to 22:00). -/
theorem persistEvent_end_ge_start_witness :
    (persistEvent 99 infW postA orgA dbEmpty).1.events
      = dbEmpty.events ++ [builtEvent infW postA orgA]
    ∧ ∃ s e, (builtEvent infW postA orgA).start = some s
        ∧ (builtEvent infW postA orgA).«end» = some e
        ∧ s ≤ e :=
  persistEvent_end_ge_start_for_lex_ordered_fields 99 infW postA orgA dbEmpty
    2023 12 29 20 0 2023 12 29 22 0
    rfl rfl rfl rfl rfl rfl rfl rfl rfl rfl
    (by decide) (by decide) (by decide) (by decide) (by decide)

end Instagram
